import Mathlib

/-!
Shallow embedding of `src/main.py` (a flat-file patient record manager) and
proofs about the claims of its specification.

Modelling conventions:
* Python values that can be either an `int` or a `str` (record fields read back
  from JSON keep their types, fields read back from CSV are all strings) are
  modelled by the sum type `Value`; Python's `str(...)` on such a value is `pyStr`.
* Strings are modelled as Lean `String`/`List Char`; the character class `\d`
  of the Python regexes is modelled as an ASCII digit (`Char.isDigit`), which
  matches Python's behaviour on ASCII input (non-ASCII Unicode digits are
  outside the model).
* `re.match(pat, s)` where `pat = "^...$"` succeeds iff the body matches the
  whole string, or the whole string minus a single trailing newline: in Python,
  `$` matches at the end of the string or just before a trailing newline.
  This is `reMatchDollar`.
* Python's `int(s)` strips surrounding whitespace and then reads the digits;
  this is `pyNat?` (signs/underscores of the full `int()` grammar never occur
  at its call sites here, so they are not modelled).
* The filesystem holds at most one `patients.csv` and one `patients.json`;
  the byte-level serialisation of the two files is abstracted to the parse
  result: a CSV file is a header row plus rows of cells (Python's `csv` module
  escaping is a bijection on rows, and parses any text file), a JSON file is
  either a well-formed array of records or `malformed` (anything that makes
  `json.load` raise `JSONDecodeError`).
-/

/-- A Python value that is either an `int` or a `str`. -/
inductive Value where
  | VInt (n : Int)
  | VStr (s : String)
deriving DecidableEq, Repr

open Value

/-- Python `str(v)` for the values occurring here. -/
def pyStr : Value → String
  | VInt n => toString n
  | VStr s => s

/-- The current date, as used by `datetime.today()` (time of day is unused). -/
structure PyDate where
  year : Nat
  month : Nat
  day : Nat
deriving DecidableEq, Repr

/-- Whitespace as stripped by Python's `int()` (`str.strip` default set,
restricted to the ASCII whitespace characters). -/
def isPyWs (c : Char) : Bool :=
  c = (' ') || c = ('\t') || c = ('\n') || c = ('\r') || c = ('\x0b') || c = ('\x0c')

/-- Strip trailing, then leading whitespace (the order is immaterial). -/
def stripWs (cs : List Char) : List Char :=
  ((cs.reverse.dropWhile isPyWs).reverse).dropWhile isPyWs

/-- Numeric value of a digit string. -/
def digitsVal (cs : List Char) : Nat :=
  cs.foldl (fun acc c => 10 * acc + (c.toNat - 48)) 0

/-- Python `int(s)` for a nonnegative-integer literal: strip whitespace, then
require at least one digit and nothing else. -/
def pyNat? (cs : List Char) : Option Nat :=
  let t := stripWs cs
  if t.isEmpty then none
  else if t.all Char.isDigit then some (digitsVal t) else none

/-- Python `s.split(sep)` for a one-character separator. -/
def splitOnChar (sep : Char) : List Char → List (List Char)
  | [] => [[]]
  | c :: cs =>
    if c = sep then [] :: splitOnChar sep cs
    else
      match splitOnChar sep cs with
      | [] => [[c]]
      | p :: ps => (c :: p) :: ps

/-- Character range test, as for a regex class like `[1-9]`. -/
def charBetween (lo hi c : Char) : Bool :=
  decide (lo ≤ c) && decide (c ≤ hi)

/-- The regex group `(0[1-9]|[12][0-9]|3[01])` of `validate_date_of_birth`. -/
def dayGroup (a b : Char) : Bool :=
  (a == ('0') && charBetween ('1') ('9') b) ||
  ((a == ('1') || a == ('2')) && b.isDigit) ||
  (a == ('3') && (b == ('0') || b == ('1')))

/-- The regex group `(0[1-9]|1[0-2])` of `validate_date_of_birth`. -/
def monthGroup (a b : Char) : Bool :=
  (a == ('0') && charBetween ('1') ('9') b) ||
  (a == ('1') && charBetween ('0') ('2') b)

/-- Whole-body match of `(0[1-9]|[12][0-9]|3[01])-(0[1-9]|1[0-2])-(\d{4})`.
Every alternative of each group has a fixed width, so the body matches exactly
the 10-character strings of this shape. -/
def matchDatePattern : List Char → Bool
  | [d1, d2, s1, m1, m2, s2, y1, y2, y3, y4] =>
    dayGroup d1 d2 && s1 == ('-') && monthGroup m1 m2 && s2 == ('-') &&
      y1.isDigit && y2.isDigit && y3.isDigit && y4.isDigit
  | _ => false

/-- Whole-body match of `\d{3}-\d{3}-\d{4}` (fixed width 12). -/
def matchPhonePattern : List Char → Bool
  | [a, b, c, s1, d, e, f, s2, g, h, i, j] =>
    a.isDigit && b.isDigit && c.isDigit && s1 == ('-') &&
      d.isDigit && e.isDigit && f.isDigit && s2 == ('-') &&
      g.isDigit && h.isDigit && i.isDigit && j.isDigit
  | _ => false

/-- `re.match("^body$", s)` in Python: the body must match the whole string,
or the whole string minus one trailing newline (`$` also matches just before a
newline that ends the string). -/
def reMatchDollar (body : List Char → Bool) (cs : List Char) : Bool :=
  body cs || (if cs.getLast? = some ('\n') then body cs.dropLast else false)

/-- Remove a single trailing newline, if present. -/
def stripNl (cs : List Char) : List Char :=
  if cs.getLast? = some ('\n') then cs.dropLast else cs

/-- `stripNl` on strings. -/
def stripTrailingNl (s : String) : String :=
  String.mk (stripNl s.data)

/-- Gregorian leap year, as implemented by Python's `datetime`. -/
def isLeapYear (y : Nat) : Bool :=
  y % 4 == 0 && (y % 100 != 0 || y % 400 == 0)

/-- Days in a month, as implemented by Python's `datetime`. -/
def daysInMonth (y m : Nat) : Nat :=
  if m == 2 then (if isLeapYear y then 29 else 28)
  else if m == 4 || m == 6 || m == 9 || m == 11 then 30
  else 31

/-- `datetime(year, month, day)` succeeds iff this holds (`MINYEAR = 1`,
`MAXYEAR = 9999`). -/
def datetimeOK (y m d : Nat) : Bool :=
  1 ≤ y && y ≤ 9999 && 1 ≤ m && m ≤ 12 && 1 ≤ d && d ≤ daysInMonth y m

/-- `Patient.validate_date_of_birth` (src/main.py:38-52): regex match of
`^(0[1-9]|[12][0-9]|3[01])-(0[1-9]|1[0-2])-(\d{4})$`, then
`day, month, year = map(int, date_str.split('-'))` and a guarded
`datetime(year, month, day)`.  Under a successful regex match the split always
yields exactly three numeric parts, so the fallback branches are unreachable
(in Python they would raise, but cannot). -/
def validate_date_of_birth (s : String) : Bool :=
  if reMatchDollar matchDatePattern s.data then
    match (splitOnChar ('-') s.data).map pyNat? with
    | [some d, some m, some y] => datetimeOK y m d
    | _ => false
  else false

/-- `Patient.validate_phone_number` (src/main.py:54-58):
`bool(re.match(r"^\d{3}-\d{3}-\d{4}$", phone_str))`. -/
def validate_phone_number (s : String) : Bool :=
  reMatchDollar matchPhonePattern s.data

/-- Modelled from the spec's words for C2: the string is EXACTLY a
`DD-MM-YYYY` pattern (day 01-31, month 01-12, four-digit year, nothing else)
and denotes a real calendar date. -/
def specValidDate (s : String) : Bool :=
  matchDatePattern s.data &&
    (match (splitOnChar ('-') s.data).map pyNat? with
     | [some d, some m, some y] => datetimeOK y m d
     | _ => false)

/-- Modelled from the spec's words for C3: the string matches EXACTLY
`\d{3}-\d{3}-\d{4}`, nothing else. -/
def specPhoneExact (s : String) : Bool :=
  matchPhonePattern s.data

/-- The two-digit / one-digit day token of `strptime`'s `%d`
(`3[01]|[12]\d|0[1-9]|[1-9]`): one digit `1-9`, or two digits with value
`01`-`31`. -/
def dayToken? : List Char → Option Nat
  | [c] => if charBetween ('1') ('9') c then some (c.toNat - 48) else none
  | [a, b] =>
    if a.isDigit && b.isDigit then
      let v := 10 * (a.toNat - 48) + (b.toNat - 48)
      if 1 ≤ v && v ≤ 31 then some v else none
    else none
  | _ => none

/-- The month token of `strptime`'s `%m` (`1[0-2]|0[1-9]|[1-9]`). -/
def monthToken? : List Char → Option Nat
  | [c] => if charBetween ('1') ('9') c then some (c.toNat - 48) else none
  | [a, b] =>
    if a.isDigit && b.isDigit then
      let v := 10 * (a.toNat - 48) + (b.toNat - 48)
      if 1 ≤ v && v ≤ 12 then some v else none
    else none
  | _ => none

/-- The year token of `strptime`'s `%Y` (exactly four digits). -/
def yearToken? : List Char → Option Nat
  | [a, b, c, d] =>
    if a.isDigit && b.isDigit && c.isDigit && d.isDigit then
      some (digitsVal [a, b, c, d])
    else none
  | _ => none

/-- `datetime.strptime(s, "%d-%m-%Y")` (src/main.py:20), returning
`(day, month, year)` on success and `none` where Python raises `ValueError`.
The format's literal separators are dashes and no token can contain a dash, so
the whole string matches the format regex iff splitting on dashes yields
exactly a day token, a month token and a year token; `strptime` then builds a
`datetime`, which also validates the calendar date. -/
def strptimeDMY (s : String) : Option (Nat × Nat × Nat) :=
  match splitOnChar ('-') s.data with
  | [dp, mp, yp] =>
    match dayToken? dp, monthToken? mp, yearToken? yp with
    | some d, some m, some y => if datetimeOK y m d then some (d, m, y) else none
    | _, _, _ => none
  | _ => none

/-- Python tuple comparison `(a, b) < (c, d)` on integers. -/
def tupLt (a b c d : Nat) : Bool :=
  a < c || (a == c && b < d)

/-- `Patient.calculate_age` (src/main.py:18-23) applied to an already parsed
date of birth `(day, month, year)` and the current date:
`today.year - dob.year - ((today.month, today.day) < (dob.month, dob.day))`. -/
def calculate_age (dmy : Nat × Nat × Nat) (today : PyDate) : Int :=
  match dmy with
  | (d, m, y) =>
    (today.year : Int) - (y : Int) -
      (if tupLt today.month today.day m d then 1 else 0)

/-- One patient record: the dict produced by `Patient.to_dict`
(src/main.py:25-36), with the eight keys in their fixed order.  Values are
`Value`s: freshly created records hold an `int` id and age and string fields;
records read back from the CSV backend hold strings everywhere. -/
structure PatientRec where
  id : Value
  first_name : Value
  last_name : Value
  date_of_birth : Value
  age : Value
  hometown : Value
  house_number : Value
  phone_number : Value
deriving DecidableEq, Repr

/-- `Patient(...)` construction followed by `to_dict` (src/main.py:8-36).
`__init__` calls `calculate_age`, whose `strptime` raises `ValueError` on a
date of birth it cannot parse; `none` models that exception. -/
def mkPatientDict? (pid : Value) (fn ln dob ht hn pn : String) (today : PyDate) :
    Option PatientRec :=
  (strptimeDMY dob).map (fun dmy =>
    { id := pid
      first_name := VStr fn
      last_name := VStr ln
      date_of_birth := VStr dob
      age := VInt (calculate_age dmy today)
      hometown := VStr ht
      house_number := VStr hn
      phone_number := VStr pn })

/-- Apply Python `str(...)` to every field, as the CSV writer does. -/
def stringifyRec (r : PatientRec) : PatientRec :=
  { id := VStr (pyStr r.id)
    first_name := VStr (pyStr r.first_name)
    last_name := VStr (pyStr r.last_name)
    date_of_birth := VStr (pyStr r.date_of_birth)
    age := VStr (pyStr r.age)
    hometown := VStr (pyStr r.hometown)
    house_number := VStr (pyStr r.house_number)
    phone_number := VStr (pyStr r.phone_number) }

/-- The CSV row written for a record by `csv.DictWriter.writerows`
(src/main.py:84-87), in the fixed `fieldnames` order. -/
def recToRow (r : PatientRec) : List String :=
  [pyStr r.id, pyStr r.first_name, pyStr r.last_name, pyStr r.date_of_birth,
   pyStr r.age, pyStr r.hometown, pyStr r.house_number, pyStr r.phone_number]

/-- The dict `csv.DictReader` builds from one row of a file written by
`write_file` (which always has exactly the eight columns).  Rows of any other
width never occur in files this program wrote; `DictReader`'s padding of such
rows is outside the model. -/
def rowToRec? : List String → Option PatientRec
  | [a, b, c, d, e, f, g, h] =>
    some { id := VStr a, first_name := VStr b, last_name := VStr c,
           date_of_birth := VStr d, age := VStr e, hometown := VStr f,
           house_number := VStr g, phone_number := VStr h }
  | _ => none

/-- "Same field values up to numbers being represented as text". -/
def recEquiv (a b : PatientRec) : Prop :=
  pyStr a.id = pyStr b.id ∧ pyStr a.first_name = pyStr b.first_name ∧
  pyStr a.last_name = pyStr b.last_name ∧
  pyStr a.date_of_birth = pyStr b.date_of_birth ∧ pyStr a.age = pyStr b.age ∧
  pyStr a.hometown = pyStr b.hometown ∧
  pyStr a.house_number = pyStr b.house_number ∧
  pyStr a.phone_number = pyStr b.phone_number

/-- The two storage backends (`storage_type` is restricted to these by the
CLI before a manager is ever constructed). -/
inductive Backend where
  | csv
  | json
deriving DecidableEq, Repr

/-- Parse result of `patients.json`: either a well-formed array of records (the
only thing `write_file` ever writes) or text on which `json.load` raises
`JSONDecodeError`. -/
inductive JsonContent where
  | records (rs : List PatientRec)
  | malformed
deriving DecidableEq, Repr

/-- The filesystem as this program sees it: the optional `patients.csv`
(header row plus data rows of cells, the parse of any text file) and the
optional `patients.json`. -/
structure FS where
  csvFile : Option (List String × List (List String))
  jsonFile : Option JsonContent
deriving DecidableEq, Repr

/-- The header `fieldnames` of src/main.py:84. -/
def fieldnames : List String :=
  [("id"), ("first_name"), ("last_name"), ("date_of_birth"), ("age"),
   ("hometown"), ("house_number"), ("phone_number")]

/-- `FileManager.read_file` (src/main.py:62-77): a missing file (and for JSON
also an unparseable one) yields `[]`; otherwise the whole fileparses into a
list of record dicts.  CSV rows come back with every field a string. -/
def read_file (storage_type : Backend) (fs : FS) : List PatientRec :=
  match storage_type with
  | Backend.csv =>
    match fs.csvFile with
    | none => []
    | some (_, rows) => rows.filterMap rowToRec?
  | Backend.json =>
    match fs.jsonFile with
    | none => []
    | some JsonContent.malformed => []
    | some (JsonContent.records rs) => rs

/-- `FileManager.write_file` (src/main.py:79-90): overwrite the backend's file
with the full record list (stringified rows under the fixed header for CSV, a
JSON array for JSON).  The other backend's file is untouched. -/
def write_file (storage_type : Backend) (data : List PatientRec) (fs : FS) : FS :=
  match storage_type with
  | Backend.csv => { fs with csvFile := some (fieldnames, data.map recToRow) }
  | Backend.json => { fs with jsonFile := some (JsonContent.records data) }

/-- `FileManager.update_file` (src/main.py:92-95): an alias for `write_file`. -/
def update_file (storage_type : Backend) (data : List PatientRec) (fs : FS) : FS :=
  write_file storage_type data fs

/-- `FileManager.delete_from_file` (src/main.py:97-102): read everything, keep
the records whose id does not stringify to the target's string, rewrite. -/
def delete_from_file (storage_type : Backend) (patient_id : Value) (fs : FS) : FS :=
  write_file storage_type
    ((read_file storage_type fs).filter (fun p => pyStr p.id ≠ pyStr patient_id))
    fs

/-- `PatientManagementSystem` state (src/main.py:104-108): the chosen backend,
the in-memory record list, and the filesystem it reads and writes. -/
structure PMS where
  storage_type : Backend
  patients : List PatientRec
  fs : FS
deriving DecidableEq, Repr

/-- `PatientManagementSystem.__init__` (src/main.py:106-108). -/
def PMS.init (storage_type : Backend) (fs : FS) : PMS :=
  { storage_type := storage_type, patients := read_file storage_type fs, fs := fs }

/-- `PatientManagementSystem.add_patient` (src/main.py:110-114): id is
`len(self.patients) + 1`; the `Patient` constructor may raise (modelled as
`none`, in which case nothing is appended or written); on success the record
is appended and the whole list persisted. -/
def add_patient (s : PMS) (fn ln dob ht hn pn : String) (today : PyDate) :
    Option PMS :=
  (mkPatientDict? (VInt ((s.patients.length : Int) + 1)) fn ln dob ht hn pn
      today).map
    (fun rec =>
      let ps := s.patients ++ [rec]
      { storage_type := s.storage_type, patients := ps,
        fs := write_file s.storage_type ps s.fs })

/-- `PatientManagementSystem.get_all_patients` (src/main.py:116-117). -/
def get_all_patients (s : PMS) : List PatientRec :=
  s.patients

/-- `PatientManagementSystem.search_patient_by_id` (src/main.py:119-123):
first record whose id stringifies to the target's string, else `None`. -/
def search_patient_by_id (s : PMS) (patient_id : Value) : Option PatientRec :=
  s.patients.find? (fun p => pyStr p.id == pyStr patient_id)

/-- A partial field set for `update_patient_by_id`: the keys present in the
`updated_info` dict (any subset of the record's eight keys). -/
structure UpdateInfo where
  id : Option Value := none
  first_name : Option Value := none
  last_name : Option Value := none
  date_of_birth : Option Value := none
  age : Option Value := none
  hometown : Option Value := none
  house_number : Option Value := none
  phone_number : Option Value := none
deriving DecidableEq, Repr

/-- Python `patient.update(updated_info)`: overwrite exactly the keys present
in the partial field set. -/
def applyUpdate (u : UpdateInfo) (p : PatientRec) : PatientRec :=
  { id := u.id.getD p.id
    first_name := u.first_name.getD p.first_name
    last_name := u.last_name.getD p.last_name
    date_of_birth := u.date_of_birth.getD p.date_of_birth
    age := u.age.getD p.age
    hometown := u.hometown.getD p.hometown
    house_number := u.house_number.getD p.house_number
    phone_number := u.phone_number.getD p.phone_number }

/-- The loop of `update_patient_by_id` (src/main.py:126-131): walk the list,
update the first record whose id stringifies to the target, report whether a
match was found. -/
def updateList (pid : Value) (u : UpdateInfo) : List PatientRec → List PatientRec × Bool
  | [] => ([], false)
  | p :: ps =>
    if pyStr p.id = pyStr pid then (applyUpdate u p :: ps, true)
    else
      let r := updateList pid u ps
      (p :: r.1, r.2)

/-- `PatientManagementSystem.update_patient_by_id` (src/main.py:125-131): on
the first match, overwrite the provided fields, persist the whole list and
return `True`; otherwise return `False` without touching list or file. -/
def update_patient_by_id (s : PMS) (patient_id : Value) (u : UpdateInfo) :
    PMS × Bool :=
  let r := updateList patient_id u s.patients
  if r.2 then
    ({ storage_type := s.storage_type, patients := r.1,
       fs := write_file s.storage_type r.1 s.fs }, true)
  else (s, false)

/-- `PatientManagementSystem.delete_patient_by_id` (src/main.py:133-135):
delegate to `delete_from_file`, then reload the in-memory list from the file. -/
def delete_patient_by_id (s : PMS) (patient_id : Value) : PMS :=
  let fs2 := delete_from_file s.storage_type patient_id s.fs
  { storage_type := s.storage_type, patients := read_file s.storage_type fs2,
    fs := fs2 }

/-- One user-level mutation of the manager, for reachability arguments:
an `add` (with the current date at the time of the call) or a `delete`. -/
inductive Op where
  | add (fn ln dob ht hn pn : String) (today : PyDate)
  | delete (pid : Value)
deriving DecidableEq, Repr

/-- Whether an `Op` is an `add`. -/
def Op.isAdd : Op → Bool
  | Op.add _ _ _ _ _ _ _ => true
  | Op.delete _ => false

/-- Execute one operation; `none` is an uncaught Python exception (a failing
`strptime` inside `add_patient`), which aborts the run. -/
def stepOp (s : PMS) : Op → Option PMS
  | Op.add fn ln dob ht hn pn today => add_patient s fn ln dob ht hn pn today
  | Op.delete pid => some (delete_patient_by_id s pid)

/-- Run a sequence of operations from a state. -/
def runOps (s : PMS) (ops : List Op) : Option PMS :=
  ops.foldl (fun acc op => acc.bind (fun st => stepOp st op)) (some s)

/-- The empty filesystem: neither storage file exists yet. -/
def emptyFS : FS :=
  { csvFile := none, jsonFile := none }

/-- A fresh manager over an empty record set. -/
def pmsEmpty (b : Backend) : PMS :=
  PMS.init b emptyFS


/-- Concrete records and states used by the witness and counterexample
theorems below. -/
def wrecA : PatientRec :=
  { id := VInt 1, first_name := VStr ("A"), last_name := VStr ("A"),
    date_of_birth := VStr ("01-01-2000"), age := VInt 24,
    hometown := VStr ("H"), house_number := VStr ("1"),
    phone_number := VStr ("024-000-0000") }

def wrecB : PatientRec :=
  { id := VInt 2, first_name := VStr ("B"), last_name := VStr ("B"),
    date_of_birth := VStr ("02-01-2000"), age := VInt 24,
    hometown := VStr ("H"), house_number := VStr ("2"),
    phone_number := VStr ("024-000-0001") }

/-- A two-record manager state for the C5 witness. -/
def w5state : PMS :=
  { storage_type := Backend.json, patients := [wrecA, wrecB],
    fs := write_file Backend.json [wrecA, wrecB] emptyFS }

/-- A one-field partial update for the C5 witness. -/
def w5upd : UpdateInfo :=
  { first_name := some (VStr ("Z")) }

/-- Two adds and no delete (C1 witness trace). -/
def c1AddsTrace : List Op :=
  [Op.add ("A") ("A") ("01-01-2000") ("H") ("1") ("024-000-0000") ⟨2024, 1, 1⟩,
   Op.add ("B") ("B") ("02-01-2000") ("H") ("2") ("024-000-0001") ⟨2024, 1, 1⟩]

/-- Add, add, delete id 1, add again (C1 counterexample trace): the last add
is assigned id `len + 1 = 2`, which still names a stored record. -/
def c1DelTrace : List Op :=
  [Op.add ("A") ("A") ("01-01-2000") ("H") ("1") ("024-000-0000") ⟨2024, 1, 1⟩,
   Op.add ("B") ("B") ("02-01-2000") ("H") ("2") ("024-000-0001") ⟨2024, 1, 1⟩,
   Op.delete (VStr ("1")),
   Op.add ("C") ("C") ("03-01-2000") ("H") ("3") ("024-000-0002") ⟨2024, 1, 1⟩]

/-- The same shape of trace for the C4 counterexample: after it, the record
just added (first name C) and an older record (first name B) both carry id 2. -/
def c4Trace : List Op :=
  [Op.add ("A") ("A") ("01-01-2000") ("H") ("1") ("024-000-0000") ⟨2024, 1, 1⟩,
   Op.add ("B") ("B") ("02-01-2000") ("H") ("2") ("024-000-0001") ⟨2024, 1, 1⟩,
   Op.delete (VStr ("1")),
   Op.add ("C") ("C") ("03-01-2000") ("H") ("3") ("024-000-0002") ⟨2024, 1, 1⟩]

/-! ### Helper lemmas about the storage adapter -/

/-- Reading back a CSV row written for `r` yields `r` with every field
stringified. -/
theorem rowToRec?_recToRow (r : PatientRec) :
    rowToRec? (recToRow r) = some (stringifyRec r) := rfl

/-- `read_file ∘ write_file` on the JSON backend is the identity. -/
theorem read_write_json (data : List PatientRec) (fs : FS) :
    read_file Backend.json (write_file Backend.json data fs) = data := rfl

/-- `read_file ∘ write_file` on the CSV backend stringifies every field. -/
theorem read_write_csv (data : List PatientRec) (fs : FS) :
    read_file Backend.csv (write_file Backend.csv data fs) =
      data.map stringifyRec := by
  show (data.map recToRow).filterMap rowToRec? = data.map stringifyRec
  induction data with
  | nil => rfl
  | cons r rs ih =>
    simp only [List.map_cons, List.filterMap_cons, rowToRec?_recToRow, ih]

/-- A record parsed from a CSV row has only string fields, so stringifying it
again changes nothing. -/
theorem stringify_rowToRec (row : List String) (q : PatientRec)
    (h : rowToRec? row = some q) : stringifyRec q = q := by
  unfold rowToRec? at h
  split at h
  · cases h; rfl
  · cases h

/-- Every record obtained by reading the CSV backend is fixed by
`stringifyRec`. -/
theorem stringify_mem_read_csv (fs : FS) (q : PatientRec)
    (hq : q ∈ read_file Backend.csv fs) : stringifyRec q = q := by
  unfold read_file at hq
  cases h : fs.csvFile with
  | none => rw [h] at hq; cases hq
  | some hr =>
    rw [h] at hq
    obtain ⟨row, _, hrow⟩ := List.mem_filterMap.mp hq
    exact stringify_rowToRec row q hrow

/-- `stringifyRec` does not change how the id prints. -/
theorem pyStr_stringify_id (r : PatientRec) :
    pyStr (stringifyRec r).id = pyStr r.id := rfl

/-- Reading back what `write_file` wrote yields records whose ids print the
same as those of the written data (exactly the written data for JSON, its
stringification for CSV). -/
theorem mem_read_write (b : Backend) (data : List PatientRec) (fs : FS)
    (q : PatientRec) (hq : q ∈ read_file b (write_file b data fs)) :
    ∃ r ∈ data, pyStr q.id = pyStr r.id := by
  cases b with
  | json =>
    rw [read_write_json] at hq
    exact ⟨q, hq, rfl⟩
  | csv =>
    rw [read_write_csv] at hq
    obtain ⟨r, hr, rfl⟩ := List.mem_map.mp hq
    exact ⟨r, hr, pyStr_stringify_id r⟩

/-! ### Claim theorems -/

/-- Claim C7: for both backends, `read_file` returns the empty sequence when
the backing file does not exist, and for the JSON backend also when its
contents are unparseable; it never raises (it is a total function of the
file's parse state; for the CSV backend Python's `csv` reader parses any
text, so an unparseable CSV file does not exist). -/
theorem read_file_missing_or_malformed_empty (fs : FS) :
    (fs.csvFile = none → read_file Backend.csv fs = []) ∧
    (fs.jsonFile = none → read_file Backend.json fs = []) ∧
    (fs.jsonFile = some JsonContent.malformed → read_file Backend.json fs = []) := by
  refine ⟨?_, ?_, ?_⟩ <;> intro h <;> simp [read_file, h]

/-- Witness for C7 at concrete filesystems. -/
theorem read_file_missing_or_malformed_empty_witness :
    read_file Backend.csv emptyFS = [] ∧
    read_file Backend.json emptyFS = [] ∧
    read_file Backend.json { csvFile := none, jsonFile := some JsonContent.malformed } = [] :=
  ⟨(read_file_missing_or_malformed_empty emptyFS).1 rfl,
   (read_file_missing_or_malformed_empty emptyFS).2.1 rfl,
   (read_file_missing_or_malformed_empty
      { csvFile := none, jsonFile := some JsonContent.malformed }).2.2 rfl⟩

/-- Claim C8: writing any record list with `write_file` and reading it back
with `read_file` yields the same records in the same order: exactly for the
JSON backend, and with every field stringified for the CSV backend — where a
stringified record has the same printed field values as the original (the
"up to numbers being represented as text" equivalence `recEquiv`). -/
theorem write_read_roundtrip (fs : FS) (recs : List PatientRec) :
    read_file Backend.json (write_file Backend.json recs fs) = recs ∧
    read_file Backend.csv (write_file Backend.csv recs fs) = recs.map stringifyRec ∧
    (recs.map stringifyRec).length = recs.length ∧
    ∀ r : PatientRec, recEquiv (stringifyRec r) r := by
  refine ⟨read_write_json recs fs, read_write_csv recs fs, List.length_map _ _, ?_⟩
  intro r
  exact ⟨rfl, rfl, rfl, rfl, rfl, rfl, rfl, rfl⟩

/-- Claim C10: `delete_patient_by_id` (via `delete_from_file`) leaves, both in
memory and in the file, exactly the stored records whose id does not print as
the target's string — all records printing equal are removed, the others keep
their original order (the result is a `List.filter`) — and when nothing
matches the record set is unchanged. -/
theorem delete_removes_exactly_matching (s : PMS) (pid : Value) :
    (delete_patient_by_id s pid).patients =
      (read_file s.storage_type s.fs).filter
        (fun p => pyStr p.id ≠ pyStr pid) ∧
    read_file s.storage_type (delete_patient_by_id s pid).fs =
      (read_file s.storage_type s.fs).filter
        (fun p => pyStr p.id ≠ pyStr pid) ∧
    ((∀ p ∈ read_file s.storage_type s.fs, pyStr p.id ≠ pyStr pid) →
      (delete_patient_by_id s pid).patients = read_file s.storage_type s.fs) := by
  have hfile :
      read_file s.storage_type (delete_from_file s.storage_type pid s.fs) =
        (read_file s.storage_type s.fs).filter
          (fun p => pyStr p.id ≠ pyStr pid) := by
    unfold delete_from_file
    cases hb : s.storage_type with
    | json => rw [read_write_json]
    | csv =>
      rw [read_write_csv]
      have : ∀ q ∈ (read_file Backend.csv s.fs).filter
          (fun p => pyStr p.id ≠ pyStr pid), stringifyRec q = q := by
        intro q hq
        exact stringify_mem_read_csv s.fs q (List.mem_filter.mp hq).1
      calc ((read_file Backend.csv s.fs).filter
              (fun p => pyStr p.id ≠ pyStr pid)).map stringifyRec
          = ((read_file Backend.csv s.fs).filter
              (fun p => pyStr p.id ≠ pyStr pid)).map id := List.map_congr_left this
        _ = _ := List.map_id _
  refine ⟨hfile, ?_, ?_⟩
  · show read_file s.storage_type (delete_from_file s.storage_type pid s.fs) = _
    exact hfile
  · intro hnone
    show read_file s.storage_type (delete_from_file s.storage_type pid s.fs) = _
    rw [hfile]
    apply List.filter_eq_self.mpr
    intro a ha
    exact decide_eq_true (hnone a ha)

/-- Witness for C10's no-match case on a concrete state. -/
theorem delete_removes_exactly_matching_witness :
    (delete_patient_by_id (pmsEmpty Backend.json) (VStr ("7"))).patients =
      read_file Backend.json emptyFS :=
  (delete_removes_exactly_matching (pmsEmpty Backend.json) (VStr ("7"))).2.2
    (by decide)

/-- Claim C6: after `delete_patient_by_id s pid`, searching for `pid` returns
`None`, and the persisted file contains no record whose id prints as `pid`'s
string.  (Stated with the claim's hypothesis that some stored record matches;
the conclusion in fact holds for every state, because the delete rereads the
file, filters out every match and rewrites it.) -/
theorem delete_then_search_absent (s : PMS) (pid : Value)
    (_ : ∃ p ∈ s.patients, pyStr p.id = pyStr pid) :
    search_patient_by_id (delete_patient_by_id s pid) pid = none ∧
    ∀ q ∈ read_file (delete_patient_by_id s pid).storage_type
        (delete_patient_by_id s pid).fs,
      pyStr q.id ≠ pyStr pid := by
  have hmem : ∀ q ∈ read_file s.storage_type
      (delete_from_file s.storage_type pid s.fs), pyStr q.id ≠ pyStr pid := by
    intro q hq
    unfold delete_from_file at hq
    obtain ⟨r, hr, hqr⟩ := mem_read_write _ _ _ q hq
    have := (List.mem_filter.mp hr).2
    rw [hqr]
    exact of_decide_eq_true this
  constructor
  · apply List.find?_eq_none.mpr
    intro p hp
    have hp2 := hmem p hp
    simp only [beq_iff_eq]
    exact hp2
  · exact hmem

/-- Witness for C6 on a concrete two-record state. -/
theorem delete_then_search_absent_witness :
    search_patient_by_id
      (delete_patient_by_id
        { storage_type := Backend.json,
          patients := [{ id := VInt 1, first_name := VStr ("A"),
                         last_name := VStr ("A"), date_of_birth := VStr ("01-01-2000"),
                         age := VInt 24, hometown := VStr ("H"),
                         house_number := VStr ("1"), phone_number := VStr ("024-000-0000") }],
          fs := write_file Backend.json
                  [{ id := VInt 1, first_name := VStr ("A"),
                     last_name := VStr ("A"), date_of_birth := VStr ("01-01-2000"),
                     age := VInt 24, hometown := VStr ("H"),
                     house_number := VStr ("1"), phone_number := VStr ("024-000-0000") }]
                  emptyFS }
        (VStr ("1")))
      (VStr ("1")) = none :=
  (delete_then_search_absent _ (VStr ("1")) (by decide)).1

/-- If the scan of `update_patient_by_id` finds no match, it leaves the list
untouched. -/
theorem updateList_no_match (pid : Value) (u : UpdateInfo) :
    ∀ l : List PatientRec, (updateList pid u l).2 = false → (updateList pid u l).1 = l := by
  intro l
  induction l with
  | nil => intro _; rfl
  | cons p ps ih =>
    intro h
    by_cases hp : pyStr p.id = pyStr pid
    · simp [updateList, hp] at h
    · simp only [updateList, hp, if_false, if_neg hp] at h ⊢
      rw [ih h]

/-- The scan reports a match iff some record's id prints as the target. -/
theorem updateList_found_iff (pid : Value) (u : UpdateInfo) :
    ∀ l : List PatientRec,
      (updateList pid u l).2 = true ↔ ∃ p ∈ l, pyStr p.id = pyStr pid := by
  intro l
  induction l with
  | nil => simp [updateList]
  | cons p ps ih =>
    by_cases hp : pyStr p.id = pyStr pid
    · simp [updateList, hp]
    · simp only [updateList, if_neg hp]
      rw [ih]
      simp [hp]

/-- On a match, the scan rewrites exactly the first matching record with
`applyUpdate` and keeps everything else. -/
theorem updateList_found_decomp (pid : Value) (u : UpdateInfo) :
    ∀ l : List PatientRec, (∃ p ∈ l, pyStr p.id = pyStr pid) →
      ∃ pre q post, l = pre ++ q :: post ∧
        (∀ x ∈ pre, pyStr x.id ≠ pyStr pid) ∧ pyStr q.id = pyStr pid ∧
        (updateList pid u l).1 = pre ++ applyUpdate u q :: post ∧
        (updateList pid u l).2 = true := by
  intro l
  induction l with
  | nil => rintro ⟨p, hp, _⟩; cases hp
  | cons p ps ih =>
    intro hex
    by_cases hp : pyStr p.id = pyStr pid
    · refine ⟨[], p, ps, rfl, ?_, hp, ?_, ?_⟩
      · intro x hx; exact absurd hx (List.not_mem_nil x)
      · simp [updateList, hp]
      · simp [updateList, hp]
    · have hex2 : ∃ q ∈ ps, pyStr q.id = pyStr pid := by
        obtain ⟨q, hq, hqid⟩ := hex
        cases hq with
        | head => exact absurd hqid hp
        | tail _ hq2 => exact ⟨q, hq2, hqid⟩
      obtain ⟨pre, q, post, hsplit, hpre, hq, h1, h2⟩ := ih hex2
      refine ⟨p :: pre, q, post, by rw [hsplit]; rfl, ?_, hq, ?_, ?_⟩
      · intro x hx
        cases hx with
        | head => exact hp
        | tail _ hx2 => exact hpre x hx2
      · simp only [updateList, if_neg hp, h1, List.cons_append]
      · simp only [updateList, if_neg hp, h2]

/-- Claim C5: updating an existing id (as text) succeeds, overwrites exactly
the provided fields of the first matched record, leaves its other fields and
all other records (and their order) unchanged, and persists the whole list;
updating an id that matches nothing returns `false` and leaves both the
in-memory list and the filesystem exactly as they were. -/
theorem update_partial_frame (s : PMS) (pid : Value) (u : UpdateInfo) :
    ((∀ p ∈ s.patients, pyStr p.id ≠ pyStr pid) →
        update_patient_by_id s pid u = (s, false)) ∧
    ((∃ p ∈ s.patients, pyStr p.id = pyStr pid) →
      (update_patient_by_id s pid u).2 = true ∧
      (update_patient_by_id s pid u).1.storage_type = s.storage_type ∧
      (update_patient_by_id s pid u).1.fs =
        write_file s.storage_type (update_patient_by_id s pid u).1.patients s.fs ∧
      ∃ pre q post, s.patients = pre ++ q :: post ∧
        (∀ x ∈ pre, pyStr x.id ≠ pyStr pid) ∧ pyStr q.id = pyStr pid ∧
        (update_patient_by_id s pid u).1.patients =
          pre ++ applyUpdate u q :: post) ∧
    (∀ q : PatientRec,
      (u.id = none → (applyUpdate u q).id = q.id) ∧
      (u.first_name = none → (applyUpdate u q).first_name = q.first_name) ∧
      (u.last_name = none → (applyUpdate u q).last_name = q.last_name) ∧
      (u.date_of_birth = none → (applyUpdate u q).date_of_birth = q.date_of_birth) ∧
      (u.age = none → (applyUpdate u q).age = q.age) ∧
      (u.hometown = none → (applyUpdate u q).hometown = q.hometown) ∧
      (u.house_number = none → (applyUpdate u q).house_number = q.house_number) ∧
      (u.phone_number = none → (applyUpdate u q).phone_number = q.phone_number) ∧
      (∀ v, u.id = some v → (applyUpdate u q).id = v) ∧
      (∀ v, u.first_name = some v → (applyUpdate u q).first_name = v) ∧
      (∀ v, u.last_name = some v → (applyUpdate u q).last_name = v) ∧
      (∀ v, u.date_of_birth = some v → (applyUpdate u q).date_of_birth = v) ∧
      (∀ v, u.age = some v → (applyUpdate u q).age = v) ∧
      (∀ v, u.hometown = some v → (applyUpdate u q).hometown = v) ∧
      (∀ v, u.house_number = some v → (applyUpdate u q).house_number = v) ∧
      (∀ v, u.phone_number = some v → (applyUpdate u q).phone_number = v)) := by
  refine ⟨?_, ?_, ?_⟩
  · intro hnone
    have hfound : (updateList pid u s.patients).2 = false := by
      cases hf : (updateList pid u s.patients).2 with
      | false => rfl
      | true =>
        obtain ⟨p, hp, hpid⟩ := (updateList_found_iff pid u s.patients).mp hf
        exact absurd hpid (hnone p hp)
    unfold update_patient_by_id
    rw [if_neg (by rw [hfound]; exact Bool.false_ne_true)]
  · intro hex
    obtain ⟨pre, q, post, hsplit, hpre, hq, h1, h2⟩ :=
      updateList_found_decomp pid u s.patients hex
    have hrun : update_patient_by_id s pid u =
        ({ storage_type := s.storage_type,
           patients := (updateList pid u s.patients).1,
           fs := write_file s.storage_type (updateList pid u s.patients).1 s.fs },
         true) := by
      unfold update_patient_by_id
      rw [if_pos h2]
    rw [hrun]
    exact ⟨rfl, rfl, rfl, pre, q, post, hsplit, hpre, hq, h1⟩
  · intro q
    refine ⟨?_, ?_, ?_, ?_, ?_, ?_, ?_, ?_, ?_, ?_, ?_, ?_, ?_, ?_, ?_, ?_⟩ <;>
      first
      | (intro h; simp [applyUpdate, h])
      | (intro v h; simp [applyUpdate, h])

/-- Witness for C5: a real match updates and reports `true`; a missing id
reports `false` and changes nothing. -/
theorem update_partial_frame_witness :
    (update_patient_by_id w5state (VInt 2) w5upd).2 = true ∧
    update_patient_by_id w5state (VInt 9) w5upd = (w5state, false) :=
  ⟨((update_partial_frame w5state (VInt 2) w5upd).2.1 (by decide)).1,
   (update_partial_frame w5state (VInt 9) w5upd).1 (by decide)⟩

/-! ### Identifier assignment along operation traces -/

/-- The stored ids are exactly `1, 2, ..., n` in order. -/
def idsSequential (s : PMS) : Prop :=
  s.patients.map (fun p => p.id) =
    (List.range s.patients.length).map (fun i : Nat => VInt ((i : Int) + 1))

/-- A fresh manager over the empty filesystem holds no records. -/
theorem pmsEmpty_patients (b : Backend) : (pmsEmpty b).patients = [] := by
  cases b <;> rfl

/-- A successful `add_patient` appends one record whose id is `count + 1`. -/
theorem add_patient_some (s s2 : PMS) (fn ln dob ht hn pn : String)
    (today : PyDate)
    (hadd : add_patient s fn ln dob ht hn pn today = some s2) :
    ∃ rec, rec.id = VInt ((s.patients.length : Int) + 1) ∧
      rec.first_name = VStr fn ∧ rec.last_name = VStr ln ∧
      rec.date_of_birth = VStr dob ∧ rec.hometown = VStr ht ∧
      rec.house_number = VStr hn ∧ rec.phone_number = VStr pn ∧
      s2 = { storage_type := s.storage_type, patients := s.patients ++ [rec],
             fs := write_file s.storage_type (s.patients ++ [rec]) s.fs } := by
  unfold add_patient at hadd
  cases hmk : mkPatientDict? (VInt ((s.patients.length : Int) + 1)) fn ln dob ht hn pn
      today with
  | none => rw [hmk] at hadd; cases hadd
  | some rec =>
    rw [hmk, Option.map_some'] at hadd
    injection hadd with hadd
    unfold mkPatientDict? at hmk
    cases hst : strptimeDMY dob with
    | none => rw [hst] at hmk; cases hmk
    | some dmy =>
      rw [hst, Option.map_some'] at hmk
      injection hmk with hmk
      exact ⟨rec, by rw [← hmk], by rw [← hmk], by rw [← hmk], by rw [← hmk],
        by rw [← hmk], by rw [← hmk], by rw [← hmk], hadd.symm⟩

/-- A successful add preserves `idsSequential`. -/
theorem add_preserves_idsSequential (s s2 : PMS) (fn ln dob ht hn pn : String)
    (today : PyDate) (h : idsSequential s)
    (hadd : add_patient s fn ln dob ht hn pn today = some s2) :
    idsSequential s2 := by
  obtain ⟨rec, hid, _, _, _, _, _, _, hs2⟩ :=
    add_patient_some s s2 fn ln dob ht hn pn today hadd
  subst hs2
  unfold idsSequential at h ⊢
  simp only [List.map_append, List.length_append, List.map_cons, List.map_nil,
    List.length_cons, List.length_nil]
  rw [h, hid]
  have : s.patients.length + (0 + 1) = (s.patients.length + 1) := by omega
  rw [this, List.range_succ, List.map_append]
  rfl

/-- Folding the runner over any operations from a dead (`none`) state stays
dead. -/
theorem foldl_step_none (ops : List Op) :
    ops.foldl (fun acc op => acc.bind (fun st => stepOp st op)) none = none := by
  induction ops with
  | nil => rfl
  | cons op ops ih => rw [List.foldl_cons]; exact ih

/-- Unfolding one step of `runOps`. -/
theorem runOps_cons (s : PMS) (op : Op) (ops : List Op) :
    runOps s (op :: ops) =
      match stepOp s op with
      | none => none
      | some s2 => runOps s2 ops := by
  unfold runOps
  rw [List.foldl_cons, Option.some_bind]
  cases stepOp s op with
  | none => exact foldl_step_none ops
  | some s2 => rfl

/-- Along a trace of adds only, `idsSequential` is an invariant. -/
theorem runOps_adds_idsSequential (ops : List Op) :
    ∀ s : PMS, (∀ op ∈ ops, op.isAdd = true) → idsSequential s →
      (runOps s ops).elim True idsSequential := by
  induction ops with
  | nil => intro s _ h; exact h
  | cons op ops ih =>
    intro s hops h
    rw [runOps_cons]
    cases hst : stepOp s op with
    | none => exact trivial
    | some s2 =>
      have hisadd := hops op (List.mem_cons_self op ops)
      cases op with
      | delete pid => simp [Op.isAdd] at hisadd
      | add fn ln dob ht hn pn today =>
        exact ih s2 (fun o ho => hops o (List.mem_cons_of_mem _ ho))
          (add_preserves_idsSequential s s2 fn ln dob ht hn pn today h hst)

/-- Sequential ids are pairwise distinct. -/
theorem idsSequential_nodup (s : PMS) (h : idsSequential s) :
    (s.patients.map (fun p => p.id)).Nodup := by
  rw [h]
  refine List.Nodup.map ?_ (List.nodup_range _)
  intro i j hij
  injection hij with h2
  omega

/-- Claim C1 (amended): ids are assigned as `count + 1`; along every sequence
of adds with no deletion, the stored ids are exactly `1..n` and pairwise
distinct.  (After a deletion this fails: `count + 1` can repeat a live id —
see the counterexample.) -/
theorem ids_unique_without_deletion (b : Backend) (ops : List Op)
    (hadds : ∀ op ∈ ops, op.isAdd = true) :
    (runOps (pmsEmpty b) ops).elim True
      (fun s => idsSequential s ∧ (s.patients.map (fun p => p.id)).Nodup) := by
  have h0 : idsSequential (pmsEmpty b) := by
    unfold idsSequential
    rw [pmsEmpty_patients]
    rfl
  have hrun := runOps_adds_idsSequential ops (pmsEmpty b) hadds h0
  cases hr : runOps (pmsEmpty b) ops with
  | none => exact trivial
  | some s =>
    rw [hr] at hrun
    exact ⟨hrun, idsSequential_nodup s hrun⟩

/-- Witness for C1 on a concrete two-add trace. -/
theorem ids_unique_without_deletion_witness :
    (runOps (pmsEmpty Backend.json) c1AddsTrace).elim True
      (fun s => idsSequential s ∧ (s.patients.map (fun p => p.id)).Nodup) :=
  ids_unique_without_deletion Backend.json c1AddsTrace (by decide)

/-- Counterexample to C1 as stated: after add, add, delete id 1, add, the
stored record set holds two records whose id prints as "2" — the id 2 freed
nothing, yet `count + 1 = 2` was assigned again while a record with id 2 was
still stored, so uniqueness fails on a reachable state. -/
theorem ids_duplicated_after_delete_cex :
    (runOps (pmsEmpty Backend.json) c1DelTrace).map
      (fun s => s.patients.map (fun p => pyStr p.id)) = some [("2"), ("2")] := by
  decide

/-- Claim C4 (amended): adding a record and immediately searching for the id
it was assigned returns that exact record, with the given field values —
PROVIDED no already-stored record's id prints as `count + 1`.  (Reachable
states violating the proviso exist once deletions happen; on them the search
returns the older record — see the counterexample.) -/
theorem add_then_search_finds_new (s : PMS) (fn ln dob ht hn pn : String)
    (today : PyDate)
    (hfresh : ∀ p ∈ s.patients,
      pyStr p.id ≠ pyStr (VInt ((s.patients.length : Int) + 1))) :
    (add_patient s fn ln dob ht hn pn today).elim True (fun s2 =>
      ∃ rec, s2.patients = s.patients ++ [rec] ∧
        rec.id = VInt ((s.patients.length : Int) + 1) ∧
        rec.first_name = VStr fn ∧ rec.last_name = VStr ln ∧
        rec.date_of_birth = VStr dob ∧ rec.hometown = VStr ht ∧
        rec.house_number = VStr hn ∧ rec.phone_number = VStr pn ∧
        search_patient_by_id s2 (VInt ((s.patients.length : Int) + 1)) =
          some rec) := by
  cases hadd : add_patient s fn ln dob ht hn pn today with
  | none => exact trivial
  | some s2 =>
    obtain ⟨rec, hid, h1, h2, h3, h4, h5, h6, hs2⟩ :=
      add_patient_some s s2 fn ln dob ht hn pn today hadd
    refine ⟨rec, by rw [hs2], hid, h1, h2, h3, h4, h5, h6, ?_⟩
    unfold search_patient_by_id
    rw [hs2]
    show List.find? _ (s.patients ++ [rec]) = some rec
    rw [List.find?_append]
    have hnone : List.find?
        (fun p => pyStr p.id == pyStr (VInt ((s.patients.length : Int) + 1)))
        s.patients = none := by
      apply List.find?_eq_none.mpr
      intro p hp
      simp only [beq_iff_eq]
      exact hfresh p hp
    rw [hnone]
    show Option.or none _ = _
    rw [Option.none_or]
    rw [List.find?_cons]
    have : (pyStr rec.id == pyStr (VInt ((s.patients.length : Int) + 1))) = true := by
      rw [hid]
      exact beq_self_eq_true _
    rw [this]

/-- Witness for C4 on the empty state. -/
theorem add_then_search_finds_new_witness :
    (add_patient (pmsEmpty Backend.json) ("A") ("B") ("01-01-2000") ("H") ("1")
        ("024-000-0000") ⟨2024, 1, 1⟩).elim True (fun s2 =>
      ∃ rec, s2.patients = (pmsEmpty Backend.json).patients ++ [rec] ∧
        rec.id = VInt (((pmsEmpty Backend.json).patients.length : Int) + 1) ∧
        rec.first_name = VStr ("A") ∧ rec.last_name = VStr ("B") ∧
        rec.date_of_birth = VStr ("01-01-2000") ∧ rec.hometown = VStr ("H") ∧
        rec.house_number = VStr ("1") ∧ rec.phone_number = VStr ("024-000-0000") ∧
        search_patient_by_id s2
          (VInt (((pmsEmpty Backend.json).patients.length : Int) + 1)) =
            some rec) :=
  add_then_search_finds_new (pmsEmpty Backend.json) ("A") ("B") ("01-01-2000")
    ("H") ("1") ("024-000-0000") ⟨2024, 1, 1⟩ (by decide)

/-- Counterexample to C4 as stated: on the reachable state left by add, add,
delete id 1, the next add is assigned id 2, but searching for id 2 right after
that add returns the OLDER stored record (first name B), not the record just
added (first name C, which sits last in the list). -/
theorem add_then_search_returns_older_cex :
    ((runOps (pmsEmpty Backend.json) c4Trace).bind
        (fun s => search_patient_by_id s (VInt 2))).map (fun p => p.first_name) =
      some (VStr ("B")) ∧
    (runOps (pmsEmpty Backend.json) c4Trace).map
        (fun s => s.patients.map (fun p => p.first_name)) =
      some [VStr ("B"), VStr ("C")] := by
  exact ⟨by decide, by decide⟩

/-- Claim C9 (amended): `add_patient` never consults the validators.  For any
field strings whose date of birth `strptime("%d-%m-%Y")` can parse — whether
or not `validate_date_of_birth` accepts it — and for ANY phone string,
however malformed, the record is constructed, appended and persisted.  But a
date of birth that `strptime` cannot parse as a real date makes the `Patient`
constructor raise inside `add_patient`, so nothing is constructed or
persisted (contrary to the claim's "for every choice of field strings"). -/
theorem add_never_validates (s : PMS) (fn ln dob ht hn pn : String)
    (today : PyDate) :
    ((strptimeDMY dob).isSome = true →
      ∃ rec,
        mkPatientDict? (VInt ((s.patients.length : Int) + 1)) fn ln dob ht hn pn
            today = some rec ∧
        add_patient s fn ln dob ht hn pn today =
          some { storage_type := s.storage_type,
                 patients := s.patients ++ [rec],
                 fs := write_file s.storage_type (s.patients ++ [rec]) s.fs }) ∧
    (strptimeDMY dob = none → add_patient s fn ln dob ht hn pn today = none) := by
  constructor
  · intro hsome
    obtain ⟨dmy, hdmy⟩ := Option.isSome_iff_exists.mp hsome
    have hmk : mkPatientDict? (VInt ((s.patients.length : Int) + 1)) fn ln dob
        ht hn pn today =
        some { id := VInt ((s.patients.length : Int) + 1),
               first_name := VStr fn, last_name := VStr ln,
               date_of_birth := VStr dob,
               age := VInt (calculate_age dmy today), hometown := VStr ht,
               house_number := VStr hn, phone_number := VStr pn } := by
      unfold mkPatientDict?
      rw [hdmy, Option.map_some']
    refine ⟨_, hmk, ?_⟩
    unfold add_patient
    rw [hmk, Option.map_some']
  · intro hnone
    unfold add_patient mkPatientDict?
    rw [hnone]
    rfl

/-- Witness for C9: a date of birth the validator REJECTS (`1-1-2020` lacks
the two-digit padding) and a phone string the validator rejects are still
accepted and persisted by `add_patient`. -/
theorem add_never_validates_witness :
    (add_patient (pmsEmpty Backend.json) ("X") ("Y") ("1-1-2020") ("H") ("5")
        ("abc") ⟨2024, 1, 1⟩).isSome = true ∧
    validate_date_of_birth ("1-1-2020") = false ∧
    validate_phone_number ("abc") = false := by
  refine ⟨?_, by decide, by decide⟩
  obtain ⟨rec, _, hadd⟩ :=
    (add_never_validates (pmsEmpty Backend.json) ("X") ("Y") ("1-1-2020") ("H")
        ("5") ("abc") ⟨2024, 1, 1⟩).1 (by decide)
  rw [hadd]
  rfl

/-- Counterexample to C9 as stated: with date of birth `31-02-2020` (on which
`validate_date_of_birth` returns false) `add_patient` raises inside
`calculate_age` and persists nothing, instead of constructing and persisting
the record as the claim asserts for every choice of field strings. -/
theorem add_raises_on_bad_dob_cex :
    add_patient (pmsEmpty Backend.json) ("A") ("B") ("31-02-2020") ("H") ("5")
        ("024-000-0000") ⟨2024, 1, 1⟩ = none ∧
    validate_date_of_birth ("31-02-2020") = false := by
  exact ⟨by decide, by decide⟩

/-! ### Lemmas about the two regex bodies -/

/-- A string matching the phone body ends in a digit, never in a newline. -/
theorem matchPhone_getLast (cs : List Char) (h : matchPhonePattern cs = true) :
    cs.getLast? ≠ some ('\n') := by
  rcases cs with _ | ⟨c1, _ | ⟨c2, _ | ⟨c3, _ | ⟨c4, _ | ⟨c5, _ | ⟨c6, _ | ⟨c7,
    _ | ⟨c8, _ | ⟨c9, _ | ⟨c10, _ | ⟨c11, _ | ⟨c12, _ | ⟨c13, t⟩⟩⟩⟩⟩⟩⟩⟩⟩⟩⟩⟩⟩ <;>
    simp only [matchPhonePattern, Bool.and_eq_true, beq_iff_eq, and_assoc,
      Bool.false_eq_true] at h
  obtain ⟨-, -, -, -, -, -, -, -, -, -, -, h12⟩ := h
  simp only [List.getLast?_cons_cons, List.getLast?_singleton, ne_eq,
    Option.some.injEq]
  rintro rfl
  simp at h12

/-- A string matching the date body has exactly the ten-character shape of the
pattern. -/
theorem matchDate_shape (cs : List Char) (h : matchDatePattern cs = true) :
    ∃ d1 d2 m1 m2 y1 y2 y3 y4,
      cs = [d1, d2, ('-'), m1, m2, ('-'), y1, y2, y3, y4] ∧
      dayGroup d1 d2 = true ∧ monthGroup m1 m2 = true ∧
      y1.isDigit = true ∧ y2.isDigit = true ∧ y3.isDigit = true ∧
      y4.isDigit = true := by
  rcases cs with _ | ⟨a1, _ | ⟨a2, _ | ⟨a3, _ | ⟨a4, _ | ⟨a5, _ | ⟨a6, _ | ⟨a7,
    _ | ⟨a8, _ | ⟨a9, _ | ⟨a10, _ | ⟨a11, t⟩⟩⟩⟩⟩⟩⟩⟩⟩⟩⟩ <;>
    simp only [matchDatePattern, Bool.and_eq_true, beq_iff_eq, and_assoc,
      Bool.false_eq_true] at h
  obtain ⟨hday, h3, hmon, h6, hy1, hy2, hy3, hy4⟩ := h
  subst h3
  subst h6
  exact ⟨a1, a2, a4, a5, a7, a8, a9, a10, rfl, hday, hmon, hy1, hy2, hy3, hy4⟩

/-- A string matching the date body ends in a digit, never in a newline. -/
theorem matchDate_getLast (cs : List Char) (h : matchDatePattern cs = true) :
    cs.getLast? ≠ some ('\n') := by
  obtain ⟨d1, d2, m1, m2, y1, y2, y3, y4, hcs, -, -, -, -, -, hy4⟩ :=
    matchDate_shape cs h
  subst hcs
  simp only [List.getLast?_cons_cons, List.getLast?_singleton, ne_eq,
    Option.some.injEq]
  rintro rfl
  simp at hy4

/-- Claim C3 (amended): `validate_phone_number` accepts exactly the strings
that match `\d{3}-\d{3}-\d{4}` after removing at most one trailing newline —
i.e. the spec's exact-shape test, except that Python's `$` also lets a single
trailing newline through. -/
theorem validate_phone_strips_newline (s : String) :
    validate_phone_number s = specPhoneExact (stripTrailingNl s) := by
  unfold validate_phone_number specPhoneExact stripTrailingNl stripNl
    reMatchDollar
  by_cases hnl : s.data.getLast? = some ('\n')
  · rw [if_pos hnl, if_pos hnl]
    have hbody : matchPhonePattern s.data = false := by
      cases hb : matchPhonePattern s.data with
      | false => rfl
      | true => exact absurd hnl (matchPhone_getLast s.data hb)
    rw [hbody, Bool.false_or]
  · rw [if_neg hnl, if_neg hnl, Bool.or_false]

/-- Counterexample to C3 as stated: a trailing newline is not part of the
`\d{3}-\d{3}-\d{4}` shape, yet `validate_phone_number` accepts it (Python's
`$` matches just before a trailing newline). -/
theorem validate_phone_newline_cex :
    validate_phone_number ("024-000-0000\n") = true ∧
    specPhoneExact ("024-000-0000\n") = false := by
  exact ⟨by decide, by decide⟩

/-- A digit is not a dash. -/
theorem isDigit_ne_dash (c : Char) (h : c.isDigit = true) : c ≠ ('-') := by
  intro hc
  subst hc
  exact absurd h (by decide)

/-- Both characters of a day group are not dashes. -/
theorem dayGroup_ne_dash (a b : Char) (h : dayGroup a b = true) :
    a ≠ ('-') ∧ b ≠ ('-') := by
  simp only [dayGroup, Bool.or_eq_true, Bool.and_eq_true, beq_iff_eq,
    or_assoc, and_assoc] at h
  rcases h with ⟨h1, h2⟩ | ⟨h1, h2⟩ | ⟨h1, h2⟩
  · subst h1
    refine ⟨by decide, ?_⟩
    intro hb
    subst hb
    exact absurd h2 (by decide)
  · constructor
    · rcases h1 with h1 | h1 <;> (subst h1; decide)
    · intro hb
      subst hb
      exact absurd h2 (by decide)
  · subst h1
    refine ⟨by decide, ?_⟩
    rcases h2 with h2 | h2 <;> (subst h2; decide)

/-- Both characters of a month group are not dashes. -/
theorem monthGroup_ne_dash (a b : Char) (h : monthGroup a b = true) :
    a ≠ ('-') ∧ b ≠ ('-') := by
  simp only [monthGroup, Bool.or_eq_true, Bool.and_eq_true, beq_iff_eq,
    or_assoc, and_assoc] at h
  rcases h with ⟨h1, h2⟩ | ⟨h1, h2⟩ <;>
    (subst h1;
     refine ⟨by decide, ?_⟩;
     intro hb;
     subst hb;
     exact absurd h2 (by decide))

/-- Appending a newline does not change what Python's `int()` reads. -/
theorem pyNat?_concat_nl (ys : List Char) :
    pyNat? (ys ++ [('\n')]) = pyNat? ys := by
  have hstrip : stripWs (ys ++ [('\n')]) = stripWs ys := by
    unfold stripWs
    rw [List.reverse_append, List.reverse_singleton, List.singleton_append,
      List.dropWhile_cons, if_pos (by decide)]
  unfold pyNat?
  rw [hstrip]

/-- Splitting a ten-character date-shaped string on dashes yields its three
groups. -/
theorem splitOnChar_dateShape (d1 d2 m1 m2 y1 y2 y3 y4 : Char)
    (hday : dayGroup d1 d2 = true) (hmon : monthGroup m1 m2 = true)
    (hy1 : y1.isDigit = true) (hy2 : y2.isDigit = true)
    (hy3 : y3.isDigit = true) (hy4 : y4.isDigit = true) :
    splitOnChar ('-') [d1, d2, ('-'), m1, m2, ('-'), y1, y2, y3, y4] =
      [[d1, d2], [m1, m2], [y1, y2, y3, y4]] := by
  obtain ⟨hnd1, hnd2⟩ := dayGroup_ne_dash d1 d2 hday
  obtain ⟨hnm1, hnm2⟩ := monthGroup_ne_dash m1 m2 hmon
  have hny1 := isDigit_ne_dash y1 hy1
  have hny2 := isDigit_ne_dash y2 hy2
  have hny3 := isDigit_ne_dash y3 hy3
  have hny4 := isDigit_ne_dash y4 hy4
  simp [splitOnChar, hnd1, hnd2, hnm1, hnm2, hny1, hny2, hny3, hny4]

/-- The same with a trailing newline: it lands inside the year part. -/
theorem splitOnChar_dateShape_nl (d1 d2 m1 m2 y1 y2 y3 y4 : Char)
    (hday : dayGroup d1 d2 = true) (hmon : monthGroup m1 m2 = true)
    (hy1 : y1.isDigit = true) (hy2 : y2.isDigit = true)
    (hy3 : y3.isDigit = true) (hy4 : y4.isDigit = true) :
    splitOnChar ('-') [d1, d2, ('-'), m1, m2, ('-'), y1, y2, y3, y4, ('\n')] =
      [[d1, d2], [m1, m2], [y1, y2, y3, y4, ('\n')]] := by
  obtain ⟨hnd1, hnd2⟩ := dayGroup_ne_dash d1 d2 hday
  obtain ⟨hnm1, hnm2⟩ := monthGroup_ne_dash m1 m2 hmon
  have hny1 := isDigit_ne_dash y1 hy1
  have hny2 := isDigit_ne_dash y2 hy2
  have hny3 := isDigit_ne_dash y3 hy3
  have hny4 := isDigit_ne_dash y4 hy4
  have hnlne : ('\n') ≠ ('-') := by decide
  simp [splitOnChar, hnd1, hnd2, hnm1, hnm2, hny1, hny2, hny3, hny4, hnlne]

/-- `specValidDate` on a string built from an explicit character list. -/
theorem specValidDate_mk (L : List Char) :
    specValidDate (String.mk L) =
      (matchDatePattern L &&
        (match (splitOnChar ('-') L).map pyNat? with
         | [some d, some m, some y] => datetimeOK y m d
         | _ => false)) := rfl

/-- Claim C2 (amended): `validate_date_of_birth` accepts exactly the strings
that — after removing at most one trailing newline — are an exact
`DD-MM-YYYY` pattern (day 01-31, month 01-12, four-digit year) denoting a
real calendar date; i.e. the spec's test, except that Python's `$` also lets
a single trailing newline through. -/
theorem validate_dob_strips_newline (s : String) :
    validate_date_of_birth s = specValidDate (stripTrailingNl s) := by
  by_cases hnl : s.data.getLast? = some ('\n')
  · rcases List.eq_nil_or_concat s.data with h0 | ⟨L, c, hLc⟩
    · rw [h0] at hnl; cases hnl
    have hLc2 : s.data = L ++ [c] := by rw [hLc, List.concat_eq_append]
    have hc : c = ('\n') := by
      rw [hLc2, List.getLast?_concat] at hnl
      injection hnl
    subst hc
    have hdrop : s.data.dropLast = L := by rw [hLc2, List.dropLast_concat]
    have hbodyfalse : matchDatePattern s.data = false := by
      cases hb : matchDatePattern s.data with
      | false => rfl
      | true => exact absurd hnl (matchDate_getLast s.data hb)
    have hstr : stripTrailingNl s = String.mk L := by
      unfold stripTrailingNl stripNl
      rw [if_pos hnl, hdrop]
    rw [hstr, specValidDate_mk]
    unfold validate_date_of_birth reMatchDollar
    rw [hbodyfalse, Bool.false_or, if_pos hnl, hdrop]
    cases hb : matchDatePattern L with
    | false => rw [if_neg Bool.false_ne_true, Bool.false_and]
    | true =>
      rw [if_pos rfl, Bool.true_and]
      obtain ⟨d1, d2, m1, m2, y1, y2, y3, y4, hshape, hday, hmon, hy1, hy2,
        hy3, hy4⟩ := matchDate_shape L hb
      subst hshape
      have hfull : s.data =
          [d1, d2, ('-'), m1, m2, ('-'), y1, y2, y3, y4, ('\n')] := by
        rw [hLc2]
        rfl
      rw [hfull,
        splitOnChar_dateShape_nl d1 d2 m1 m2 y1 y2 y3 y4 hday hmon hy1 hy2 hy3
          hy4,
        splitOnChar_dateShape d1 d2 m1 m2 y1 y2 y3 y4 hday hmon hy1 hy2 hy3 hy4]
      simp only [List.map_cons, List.map_nil]
      have hy : [y1, y2, y3, y4, ('\n')] = [y1, y2, y3, y4] ++ [('\n')] := rfl
      rw [hy, pyNat?_concat_nl]
  · have hstr : stripTrailingNl s = s := by
      unfold stripTrailingNl stripNl
      rw [if_neg hnl]
    rw [hstr]
    unfold validate_date_of_birth specValidDate reMatchDollar
    rw [if_neg hnl, Bool.or_false]
    cases hb : matchDatePattern s.data with
    | false => rw [if_neg Bool.false_ne_true, Bool.false_and]
    | true => rw [if_pos rfl, Bool.true_and]

/-- Counterexample to C2 as stated: a trailing newline is an extra character
outside the exact `DD-MM-YYYY` shape, yet `validate_date_of_birth` accepts
it (Python's `$` matches just before a trailing newline, and `int()` strips
the newline from the year part). -/
theorem validate_dob_newline_cex :
    validate_date_of_birth ("01-01-2020\n") = true ∧
    specValidDate ("01-01-2020\n") = false := by
  exact ⟨by decide, by decide⟩
